import Mathlib

/-!
Shallow embedding of `src/setup_environment.py`, an environment-bootstrap
script: a command runner (`run_command`), four step functions
(`install_python_packages`, `check_r_installation`, `install_r_packages`,
`verify_installation`), a virtual-environment check, and an orchestrator
(`main`).  External commands are modelled by their observable outcome
(`ProcResult`); Python exceptions that escape a call are modelled with
`Except`; the working directory is a predicate on file names (`FS`).
-/

namespace SetupEnv

/-- Observable outcome of spawning one external process: either the process
ran and exited with a code (stdout/stderr captured), or the executable was
absent from the search path, in which case Python's `subprocess.run` raises
`FileNotFoundError`. -/
inductive ProcResult where
  | exited (code : Nat) (stdout stderr : String)
  | notFound
deriving DecidableEq

/-- An exception escaping a Python call in this program. -/
inductive PyExn where
  | fileNotFound
deriving DecidableEq

/-- Embedding of `run_command` (src lines 15-30): `subprocess.run` with
`check=True` raises `CalledProcessError` on a non-zero exit code, which the
`except` clause converts to `False`; a zero exit code gives `True`.  An
absent executable raises `FileNotFoundError`, which no clause catches, so it
propagates to the caller (`Except.error`). -/
def run_command (r : ProcResult) : Except PyExn Bool :=
  match r with
  | .exited code _ _ => .ok (code == 0)
  | .notFound => .error .fileNotFound

/-- Embedding of `install_python_packages` (src lines 32-44): runs the pip
upgrade command and the requirements install command, discards both boolean
results, and returns `True`.  An exception raised by either `run_command`
call propagates. -/
def install_python_packages (pipUpgrade reqInstall : ProcResult) :
    Except PyExn Bool := do
  let _ ← run_command pipUpgrade
  let _ ← run_command reqInstall
  return true

/-- The three platform-specific installation instruction lines printed by
`check_r_installation` (src lines 101-103). -/
def rInstructions : List String :=
  ["  - Ubuntu/Debian: sudo apt-get install r-base",
   "  - macOS: brew install r",
   "  - Windows: Download from https://cran.r-project.org/"]

/-- Embedding of `check_r_installation` (src lines 93-106): runs
`R --version`; on a `False` result prints the three instruction lines and
returns `False`, otherwise returns `True` printing nothing extra.  The
second component records which instruction lines were printed.  An
exception from `run_command` propagates before any instruction is
printed. -/
def check_r_installation (rVersion : ProcResult) :
    Except PyExn (Bool × List String) :=
  match run_command rVersion with
  | .error e => .error e
  | .ok true => .ok (true, [])
  | .ok false => .ok (false, rInstructions)

/-- The working directory, as the set of file names present. -/
abbrev FS := String → Bool

/-- Create or overwrite a file (the `open(..., "w")` calls). -/
def FS.write (fs : FS) (n : String) : FS :=
  fun m => if m = n then true else fs m

/-- Delete a file (`os.remove`). -/
def FS.remove (fs : FS) (n : String) : FS :=
  fun m => if m = n then false else fs m

/-- The hard-coded secondary (R) package list (src lines 50-55). -/
def r_packages : List String := ["lme4", "lmerTest", "emmeans", "MASS"]

/-- Embedding of `install_r_packages` (src lines 46-91): writes the
generated R script to `install_r_packages.R`, runs it via `Rscript`, then —
on the normal return path, whether the script succeeded or failed — removes
the file if it exists and returns the command's boolean result.  If
`run_command` raises, the exception propagates and the cleanup code does
not run. -/
def install_r_packages (rscriptRun : ProcResult) (fs : FS) :
    Except PyExn Bool × FS :=
  let fs1 := FS.write fs "install_r_packages.R"
  match run_command rscriptRun with
  | .error e => (.error e, fs1)
  | .ok success =>
      (.ok success,
       if fs1 "install_r_packages.R" then FS.remove fs1 "install_r_packages.R"
       else fs1)

/-- The hard-coded primary (Python) package list of the generated
verification script (src lines 116-117). -/
def python_packages : List String :=
  ["pandas", "polars", "sklearn", "statsmodels",
   "seaborn", "matplotlib", "openpyxl", "pyarrow", "jupyter"]

/-- Embedding of `verify_installation` (src lines 108-164): writes the
generated verification script to `verify_installation.py`, runs it via the
Python interpreter, then — on the normal return path, success or failure —
removes the file if it exists and returns the command's boolean result.
If `run_command` raises, the exception propagates and the cleanup code does
not run. -/
def verify_installation (verifyRun : ProcResult) (fs : FS) :
    Except PyExn Bool × FS :=
  let fs1 := FS.write fs "verify_installation.py"
  match run_command verifyRun with
  | .error e => (.error e, fs1)
  | .ok success =>
      (.ok success,
       if fs1 "verify_installation.py" then FS.remove fs1 "verify_installation.py"
       else fs1)

/-- Run a list of per-name checks in order, stopping at the first failure:
returns the names attempted (in order, the failing one last) and whether all
succeeded.  This is the shared shape of the `for pkg in packages` loop of
the generated R script (src lines 73-76, where a failing `library` aborts
`Rscript`) and of the import loops of the generated verification script
(src lines 119-125 and 137-143, which `sys.exit(1)` on the first
failure). -/
def checkEach (ok : String → Bool) : List String → List String × Bool
  | [] => ([], true)
  | p :: ps =>
      if ok p then
        let r := checkEach ok ps
        (p :: r.1, r.2)
      else ([p], false)

/-- Observable behaviour of one run of the generated R installer script. -/
structure RScriptRun where
  installActions : List String
  loadAttempts : List String
  ok : Bool
deriving DecidableEq

/-- Embedding of the R script generated by `install_r_packages`
(src lines 58-77): `missing_packages` keeps the declared packages not among
the installed ones; only those are passed to `install.packages`; then the
script attempts `library(pkg)` for every declared package in order,
stopping at the first load failure.  `installed` is the set of packages
already installed, `loadable` whether a `library` call succeeds after the
install phase. -/
def r_installer_script (installed : List String) (loadable : String → Bool) :
    RScriptRun :=
  let missing_packages := r_packages.filter (fun p => decide (p ∉ installed))
  let load := checkEach loadable r_packages
  { installActions := missing_packages
    loadAttempts := load.1
    ok := load.2 }

/-- Observable behaviour of one run of the generated verification script. -/
structure VerifyRun where
  pyChecked : List String
  rChecked : List String
  exitCode : Nat
  banner : Bool
deriving DecidableEq

/-- Embedding of the verification script generated by `verify_installation`
(src lines 112-152): imports the nine `python_packages` in order, calling
`sys.exit(1)` at the first `ImportError`; then imports the `rpy2` bridge
(failure exits 1); then loads the four `r_packages` through the bridge in
order, exiting 1 at the first failure; on full success prints the final
banner and exits 0.  `importable` tells whether a Python import succeeds,
`rLoadable` whether a bridged R `library` call succeeds. -/
def verify_script (importable rLoadable : String → Bool) : VerifyRun :=
  let py := checkEach importable python_packages
  if py.2 = false then
    { pyChecked := py.1, rChecked := [], exitCode := 1, banner := false }
  else if importable "rpy2" = false then
    { pyChecked := py.1, rChecked := [], exitCode := 1, banner := false }
  else
    let rl := checkEach rLoadable r_packages
    if rl.2 = false then
      { pyChecked := py.1, rChecked := rl.1, exitCode := 1, banner := false }
    else
      { pyChecked := py.1, rChecked := rl.1, exitCode := 0, banner := true }

/-- Embedding of Python's `str.lower()` (used on the prompt response at
src line 185), character by character. -/
def pyLower (s : String) : String := ⟨s.data.map Char.toLower⟩

/-- Embedding of `check_virtual_env` (src lines 166-169) as the observable
it computes; the runtime attributes it inspects are abstracted into the
boolean input of the model (`World.inVenv`). -/
def check_virtual_env (inVenv : Bool) : Bool := inVenv

/-- The four fallible orchestrator steps, in program order. -/
inductive Step where
  | installPrimary
  | checkSecondary
  | installSecondary
  | verify
deriving DecidableEq

/-- How a run of `main` ends: `sys.exit(n)` / falling off the end of `main`
(exit code 0), or an uncaught exception (Python then terminates with a
traceback and OS exit code 1, without executing any further program
statement). -/
inductive Outcome where
  | exitCode (n : Nat)
  | crashed (e : PyExn)
deriving DecidableEq

/-- Everything the environment decides about one run of the program. -/
structure World where
  inVenv : Bool
  response : String
  versionOk : Bool
  pipUpgrade : ProcResult
  reqInstall : ProcResult
  rVersion : ProcResult
  rscriptRun : ProcResult
  verifyRun : ProcResult

/-- Observable trace of one run of `main`: whether `input()` was called,
whether the low-version warning was printed, which orchestrator steps were
entered (in order), which of the three R instruction lines were printed,
how the run ended, and the final working directory. -/
structure Trace where
  readStdin : Bool
  versionWarned : Bool
  steps : List Step
  instrPrinted : List String
  outcome : Outcome
  fs : FS

/-- Embedding of `main` after the environment guard (src lines 189-216):
the version guard prints a warning when the version is below threshold and
always falls through; then each step runs in order, a `False` return value
short-circuiting to `sys.exit(1)` and an uncaught exception aborting the
run where it occurs. -/
def runSteps (w : World) (readStdin : Bool) (fs0 : FS) : Trace :=
  let warned := !w.versionOk
  match install_python_packages w.pipUpgrade w.reqInstall with
  | .error e =>
      ⟨readStdin, warned, [.installPrimary], [], .crashed e, fs0⟩
  | .ok ok1 =>
    if ok1 = false then
      ⟨readStdin, warned, [.installPrimary], [], .exitCode 1, fs0⟩
    else
      match check_r_installation w.rVersion with
      | .error e =>
          ⟨readStdin, warned, [.installPrimary, .checkSecondary], [],
           .crashed e, fs0⟩
      | .ok (ok2, instr) =>
        if ok2 = false then
          ⟨readStdin, warned, [.installPrimary, .checkSecondary], instr,
           .exitCode 1, fs0⟩
        else
          match install_r_packages w.rscriptRun fs0 with
          | (.error e, fs1) =>
              ⟨readStdin, warned,
               [.installPrimary, .checkSecondary, .installSecondary], instr,
               .crashed e, fs1⟩
          | (.ok ok3, fs1) =>
            if ok3 = false then
              ⟨readStdin, warned,
               [.installPrimary, .checkSecondary, .installSecondary], instr,
               .exitCode 1, fs1⟩
            else
              match verify_installation w.verifyRun fs1 with
              | (.error e, fs2) =>
                  ⟨readStdin, warned,
                   [.installPrimary, .checkSecondary, .installSecondary,
                    .verify], instr, .crashed e, fs2⟩
              | (.ok ok4, fs2) =>
                if ok4 = false then
                  ⟨readStdin, warned,
                   [.installPrimary, .checkSecondary, .installSecondary,
                    .verify], instr, .exitCode 1, fs2⟩
                else
                  ⟨readStdin, warned,
                   [.installPrimary, .checkSecondary, .installSecondary,
                    .verify], instr, .exitCode 0, fs2⟩

/-- Embedding of `main` (src lines 171-222): the environment guard prompts
only when `check_virtual_env` is false; a response whose lowercase form is
not `"y"` exits cleanly with code 0 before any step; otherwise the run
proceeds through `runSteps`. -/
def main (w : World) (fs0 : FS) : Trace :=
  if check_virtual_env w.inVenv then
    runSteps w false fs0
  else if pyLower w.response = "y" then
    runSteps w true fs0
  else
    ⟨true, false, [], [], .exitCode 0, fs0⟩

/-- A sample run configuration: inside a virtual environment, recent
version, every external command present and exiting 0. -/
def allOkWorld : World :=
  { inVenv := true
    response := ""
    versionOk := true
    pipUpgrade := .exited 0 "" ""
    reqInstall := .exited 0 "" ""
    rVersion := .exited 0 "" ""
    rscriptRun := .exited 0 "" ""
    verifyRun := .exited 0 "" "" }

/-- An empty working directory. -/
def emptyFS : FS := fun _ => false

lemma checkEach_of_all (ok : String → Bool) (l : List String)
    (h : ∀ p ∈ l, ok p = true) : checkEach ok l = (l, true) := by
  induction l with
  | nil => rfl
  | cons p ps ih =>
      have hp : ok p = true := h p (List.mem_cons_self p ps)
      have hps := ih (fun q hq => h q (List.mem_cons_of_mem p hq))
      simp [checkEach, hp, hps]

lemma checkEach_first_failure (ok : String → Bool) (l1 : List String)
    (p : String) (l2 : List String) (h : ∀ q ∈ l1, ok q = true)
    (hp : ok p = false) : checkEach ok (l1 ++ p :: l2) = (l1 ++ [p], false) := by
  induction l1 with
  | nil => simp [checkEach, hp]
  | cons q qs ih =>
      have hq : ok q = true := h q (List.mem_cons_self q qs)
      have hqs := ih (fun r hr => h r (List.mem_cons_of_mem q hr))
      simp [checkEach, hq, hqs]

lemma runSteps_fields (w : World) (b : Bool) (fs : FS) :
    (runSteps w b fs).readStdin = b ∧
    (runSteps w b fs).versionWarned = !w.versionOk ∧
    (runSteps w b fs).steps.head? = some .installPrimary := by
  cases h1 : install_python_packages w.pipUpgrade w.reqInstall with
  | error e => simp [runSteps, h1]
  | ok ok1 =>
    cases ok1 with
    | false => simp [runSteps, h1]
    | true =>
      cases h2 : check_r_installation w.rVersion with
      | error e => simp [runSteps, h1, h2]
      | ok pr =>
        obtain ⟨ok2, instr⟩ := pr
        cases ok2 with
        | false => simp [runSteps, h1, h2]
        | true =>
          cases h3 : install_r_packages w.rscriptRun fs with
          | mk r3 fs1 =>
            cases r3 with
            | error e => simp [runSteps, h1, h2, h3]
            | ok ok3 =>
              cases ok3 with
              | false => simp [runSteps, h1, h2, h3]
              | true =>
                cases h4 : verify_installation w.verifyRun fs1 with
                | mk r4 fs2 =>
                  cases r4 with
                  | error e => simp [runSteps, h1, h2, h3, h4]
                  | ok ok4 => cases ok4 <;> simp [runSteps, h1, h2, h3, h4]

lemma runSteps_versionOk_irrel (w : World) (b v : Bool) (fs : FS) :
    (runSteps { w with versionOk := v } b fs).steps = (runSteps w b fs).steps ∧
    (runSteps { w with versionOk := v } b fs).outcome =
      (runSteps w b fs).outcome := by
  cases h1 : install_python_packages w.pipUpgrade w.reqInstall with
  | error e => simp [runSteps, h1]
  | ok ok1 =>
    cases ok1 with
    | false => simp [runSteps, h1]
    | true =>
      cases h2 : check_r_installation w.rVersion with
      | error e => simp [runSteps, h1, h2]
      | ok pr =>
        obtain ⟨ok2, instr⟩ := pr
        cases ok2 with
        | false => simp [runSteps, h1, h2]
        | true =>
          cases h3 : install_r_packages w.rscriptRun fs with
          | mk r3 fs1 =>
            cases r3 with
            | error e => simp [runSteps, h1, h2, h3]
            | ok ok3 =>
              cases ok3 with
              | false => simp [runSteps, h1, h2, h3]
              | true =>
                cases h4 : verify_installation w.verifyRun fs1 with
                | mk r4 fs2 =>
                  cases r4 with
                  | error e => simp [runSteps, h1, h2, h3, h4]
                  | ok ok4 => cases ok4 <;> simp [runSteps, h1, h2, h3, h4]

/-- C1: the claim says a failing requirements install makes
`install_python_packages` report failure and the program exit with code 1
before the R check.  In fact `install_python_packages` discards both
`run_command` results and returns `True` (src line 44): with the
requirements install exiting 1 and everything else fine, it returns
`.ok true`, the dead error branch at src lines 195-201 is skipped, and the
run proceeds through all four steps to a successful exit 0. -/
theorem C1_primary_install_failure_not_reported :
    install_python_packages (.exited 0 "" "") (.exited 1 "" "") = .ok true ∧
    (main { allOkWorld with reqInstall := .exited 1 "" "" } emptyFS).steps =
      [.installPrimary, .checkSecondary, .installSecondary, .verify] ∧
    (main { allOkWorld with reqInstall := .exited 1 "" "" } emptyFS).outcome =
      .exitCode 0 :=
  ⟨rfl, rfl, rfl⟩

/-- C2: the claim says every failure of an external invocation — including
an absent executable — is converted to a boolean inside `run_command`.  In
fact the `except` clause at src line 26 catches only `CalledProcessError`;
an absent executable raises `FileNotFoundError` inside `subprocess.run`,
which propagates out of `run_command` to its caller. -/
theorem C2_run_command_propagates_missing_executable :
    run_command .notFound = .error .fileNotFound ∧
    run_command (.exited 7 "" "") = .ok false ∧
    run_command (.exited 0 "out" "") = .ok true :=
  ⟨rfl, rfl, rfl⟩

/-- C3: the claim says that with the R executable absent the program prints
all three platform-specific instruction lines and exits with code 1 via
`sys.exit`.  In fact `run_command ["R", "--version"]` raises an uncaught
`FileNotFoundError` (see C2), so `check_r_installation` propagates the
exception before reaching its instruction-printing branch: the run crashes
with a traceback and none of the three lines is printed. -/
theorem C3_missing_R_crashes_before_instructions :
    check_r_installation .notFound = .error .fileNotFound ∧
    (main { allOkWorld with rVersion := .notFound } emptyFS).outcome =
      .crashed .fileNotFound ∧
    (main { allOkWorld with rVersion := .notFound } emptyFS).instrPrinted =
      [] :=
  ⟨rfl, rfl, rfl⟩

/-- C4: the claim says every failing orchestrator step exits with code 1
without executing any subsequent step.  The gating structure of `main`
(src lines 194-216) does short-circuit on a `False` return, but the primary
install step can never report failure (see C1): with the requirements
install exiting 1 and `R --version` exiting 1, the secondary-runtime check
still executes after the failed primary install, and the exit code 1 comes
only from that later step. -/
theorem C4_failed_primary_step_does_not_stop_run :
    (main { allOkWorld with reqInstall := .exited 1 "" "",
                            rVersion := .exited 1 "" "" } emptyFS).steps =
      [.installPrimary, .checkSecondary] ∧
    (main { allOkWorld with reqInstall := .exited 1 "" "",
                            rVersion := .exited 1 "" "" } emptyFS).outcome =
      .exitCode 1 :=
  ⟨rfl, rfl⟩

/-- C5: when `check_virtual_env` is false the prompt is read; any response
whose lowercase form is not `"y"` makes `main` exit cleanly with code 0,
with no orchestrator step entered and the working directory untouched; a
response lowering to `"y"` continues into the step sequence, whose first
step is the primary install. -/
theorem C5_env_guard_decline_exits_clean (w : World) (fs : FS)
    (h : w.inVenv = false) :
    (pyLower w.response ≠ "y" →
       (main w fs).outcome = .exitCode 0 ∧ (main w fs).steps = [] ∧
       (main w fs).fs = fs ∧ (main w fs).readStdin = true) ∧
    (pyLower w.response = "y" →
       (main w fs).steps.head? = some .installPrimary) := by
  constructor
  · intro hy
    simp [main, check_virtual_env, h, hy]
  · intro hy
    simp [main, check_virtual_env, h, hy, (runSteps_fields w true fs).2.2]

/-- Witness for C5: with no virtual environment, the response `"n"`
exits 0 with no step run, and the response `"Y"` continues to the primary
install step. -/
theorem C5_env_guard_witness :
    (main { allOkWorld with inVenv := false, response := "n" }
        emptyFS).outcome = .exitCode 0 ∧
    (main { allOkWorld with inVenv := false, response := "n" }
        emptyFS).steps = [] ∧
    (main { allOkWorld with inVenv := false, response := "Y" }
        emptyFS).steps.head? = some .installPrimary := by
  refine ⟨?_, ?_, ?_⟩
  · exact ((C5_env_guard_decline_exits_clean
      { allOkWorld with inVenv := false, response := "n" } emptyFS rfl).1
      (by decide)).1
  · exact ((C5_env_guard_decline_exits_clean
      { allOkWorld with inVenv := false, response := "n" } emptyFS rfl).1
      (by decide)).2.1
  · exact (C5_env_guard_decline_exits_clean
      { allOkWorld with inVenv := false, response := "Y" } emptyFS rfl).2
      (by decide)

/-- C6: whenever `install_r_packages` (resp. `verify_installation`) returns
— the generated script's execution having succeeded or failed — the
temporary file `install_r_packages.R` (resp. `verify_installation.py`) is
no longer present in the working directory. -/
theorem C6_temp_scripts_deleted_on_return :
    (∀ (p : ProcResult) (fs : FS) (b : Bool),
       (install_r_packages p fs).1 = .ok b →
       (install_r_packages p fs).2 "install_r_packages.R" = false) ∧
    (∀ (p : ProcResult) (fs : FS) (b : Bool),
       (verify_installation p fs).1 = .ok b →
       (verify_installation p fs).2 "verify_installation.py" = false) := by
  constructor <;> intro p fs b h <;>
    cases hr : run_command p with
    | error e => simp [install_r_packages, verify_installation, hr] at h
    | ok s =>
        simp [install_r_packages, verify_installation, hr, FS.write,
          FS.remove]

/-- Witness for C6: a successful R-package install and a failed
verification both leave no temporary script behind. -/
theorem C6_temp_scripts_witness :
    (install_r_packages (.exited 0 "" "") emptyFS).2
      "install_r_packages.R" = false ∧
    (verify_installation (.exited 1 "" "") emptyFS).2
      "verify_installation.py" = false :=
  ⟨C6_temp_scripts_deleted_on_return.1 (.exited 0 "" "") emptyFS true rfl,
   C6_temp_scripts_deleted_on_return.2 (.exited 1 "" "") emptyFS false rfl⟩

/-- C7: the secondary package list is exactly the four names
lme4, lmerTest, emmeans, MASS; the generated R script installs exactly the
declared packages not already installed (set difference) and, when all four
are present and loadable, performs zero install actions while still loading
all four. -/
theorem C7_secondary_installer_set_difference :
    r_packages = ["lme4", "lmerTest", "emmeans", "MASS"] ∧
    (∀ (installed : List String) (loadable : String → Bool) (p : String),
       p ∈ (r_installer_script installed loadable).installActions ↔
         p ∈ r_packages ∧ p ∉ installed) ∧
    (∀ (installed : List String) (loadable : String → Bool),
       (∀ p ∈ r_packages, p ∈ installed) → (∀ p, loadable p = true) →
       (r_installer_script installed loadable).installActions = [] ∧
       (r_installer_script installed loadable).loadAttempts = r_packages ∧
       (r_installer_script installed loadable).ok = true) := by
  refine ⟨rfl, ?_, ?_⟩
  · intro installed loadable p
    simp [r_installer_script, List.mem_filter]
  · intro installed loadable hin hload
    have hl := checkEach_of_all loadable r_packages (fun p _ => hload p)
    refine ⟨?_, ?_, ?_⟩
    · simp only [r_installer_script, List.filter_eq_nil_iff]
      intro p hp
      simpa using hin p hp
    · simp [r_installer_script, hl]
    · simp [r_installer_script, hl]

/-- Witness for C7: with all four packages installed and loadable, zero
install actions and all four loaded; over an empty installed set, lme4 is
in the set difference. -/
theorem C7_secondary_installer_witness :
    (r_installer_script r_packages (fun _ => true)).installActions = [] ∧
    (r_installer_script r_packages (fun _ => true)).loadAttempts =
      r_packages ∧
    ("lme4" ∈ (r_installer_script [] (fun _ => true)).installActions ↔
       "lme4" ∈ r_packages ∧ "lme4" ∉ ([] : List String)) := by
  have h := C7_secondary_installer_set_difference.2.2 r_packages
    (fun _ => true) (fun p hp => hp) (fun p => rfl)
  exact ⟨h.1, h.2.1,
    C7_secondary_installer_set_difference.2.1 [] (fun _ => true) "lme4"⟩

/-- C8: the generated verification script imports exactly the nine listed
primary-runtime packages in order; the first import failure stops the scan
(the failing package is the last one attempted) and exits with status 1
without the banner; when every import and bridged load succeeds the script
prints the completion banner and exits 0. -/
theorem C8_verify_script_nine_imports_short_circuit :
    python_packages.length = 9 ∧
    python_packages = ["pandas", "polars", "sklearn", "statsmodels",
      "seaborn", "matplotlib", "openpyxl", "pyarrow", "jupyter"] ∧
    (∀ (imp rl : String → Bool) (l1 : List String) (p : String)
       (l2 : List String),
       python_packages = l1 ++ p :: l2 → (∀ q ∈ l1, imp q = true) →
       imp p = false →
       (verify_script imp rl).pyChecked = l1 ++ [p] ∧
       (verify_script imp rl).exitCode = 1 ∧
       (verify_script imp rl).banner = false) ∧
    (∀ (imp rl : String → Bool), (∀ q, imp q = true) → (∀ q, rl q = true) →
       (verify_script imp rl).banner = true ∧
       (verify_script imp rl).exitCode = 0) := by
  refine ⟨rfl, rfl, ?_, ?_⟩
  · intro imp rl l1 p l2 hsplit h1 hp
    have hc : checkEach imp python_packages = (l1 ++ [p], false) := by
      rw [hsplit]
      exact checkEach_first_failure imp l1 p l2 h1 hp
    simp [verify_script, hc]
  · intro imp rl himp hrl
    have h1 := checkEach_of_all imp python_packages (fun q _ => himp q)
    have h2 := checkEach_of_all rl r_packages (fun q _ => hrl q)
    simp [verify_script, h1, h2, himp "rpy2"]

/-- Witness for C8: with sklearn the only broken import, the scan stops at
sklearn with exit 1; with everything importable and loadable the banner is
printed. -/
theorem C8_verify_script_witness :
    (verify_script (fun q => !(q == "sklearn"))
        (fun _ => true)).pyChecked = ["pandas", "polars", "sklearn"] ∧
    (verify_script (fun q => !(q == "sklearn"))
        (fun _ => true)).exitCode = 1 ∧
    (verify_script (fun _ => true) (fun _ => true)).banner = true := by
  have h := C8_verify_script_nine_imports_short_circuit.2.2.1
    (fun q => !(q == "sklearn")) (fun _ => true) ["pandas", "polars"]
    "sklearn"
    ["statsmodels", "seaborn", "matplotlib", "openpyxl", "pyarrow",
     "jupyter"] rfl (by decide) rfl
  have h2 := C8_verify_script_nine_imports_short_circuit.2.2.2
    (fun _ => true) (fun _ => true) (fun q => rfl) (fun q => rfl)
  exact ⟨h.1, h.2.1, h2.1⟩

/-- C9: the version guard only prints a warning — it is printed exactly
when the version is below threshold — and never blocks: whatever the
version check's outcome, the run always continues to the primary install
step (the first step entered), and the steps executed and the final
outcome are identical for both outcomes of the version check. -/
theorem C9_version_guard_warns_only (w : World) (b : Bool) (fs : FS) :
    (runSteps w b fs).versionWarned = !w.versionOk ∧
    (runSteps w b fs).steps.head? = some .installPrimary ∧
    ∀ v, (runSteps { w with versionOk := v } b fs).steps =
           (runSteps w b fs).steps ∧
         (runSteps { w with versionOk := v } b fs).outcome =
           (runSteps w b fs).outcome :=
  ⟨(runSteps_fields w b fs).2.1, (runSteps_fields w b fs).2.2,
   fun v => runSteps_versionOk_irrel w b v fs⟩

/-- C10: a run that `check_virtual_env` reports as isolated never reads
standard input; conversely the prompt is read only on the non-isolated
branch. -/
theorem C10_isolated_run_never_reads_stdin (w : World) (fs : FS) :
    (w.inVenv = true → (main w fs).readStdin = false) ∧
    ((main w fs).readStdin = true → w.inVenv = false) := by
  have hrun : ∀ b, (runSteps w b fs).readStdin = b :=
    fun b => (runSteps_fields w b fs).1
  constructor
  · intro h
    simp [main, check_virtual_env, h, hrun false]
  · intro h
    cases hv : w.inVenv with
    | false => rfl
    | true =>
      have hf : (main w fs).readStdin = false := by
        simp [main, check_virtual_env, hv, hrun false]
      simp [hf] at h

/-- Witness for C10: the all-success isolated run reads nothing from
standard input. -/
theorem C10_isolated_run_witness :
    (main allOkWorld emptyFS).readStdin = false :=
  (C10_isolated_run_never_reads_stdin allOkWorld emptyFS).1 rfl

end SetupEnv
